import Mathlib

/-! # GoMongoDb: the `/todos` endpoint of `main.go`

A shallow embedding of the request handlers of `main.go` (`toJSON`, `listTodos`,
`createTodo` and the method dispatch registered in `main`) together with the
properties of the specification that concern them.

Conventions of the embedding:

* Go strings are sequences of code points (`String`).
* The standard library and the MongoDB driver are the environment of the program.
  Their behaviour enters either as a small transcription of the library function
  (`strings.TrimSpace`, `unicode.IsSpace`, `url.Values.Get`, `http.Error`,
  `ObjectID.Hex`) or as a parameter (`Env`, `Collection`).
* A handler returns an `Outcome`: the final state of its `http.ResponseWriter`, the
  calls it issued on the collection, in order, and the state of the store afterwards.
-/

namespace GoMongoDb

/-! ## Strings -/

/-- Go `unicode.ToLower` on one rune: the ASCII letters are mapped by the code itself,
the mapping of the other runes is the table `u` of the `unicode` package. -/
def lowerRune (u : Char → Char) (c : Char) : Char :=
  if c.toNat < 128 then
    (if 'A' ≤ c ∧ c ≤ 'Z' then Char.ofNat (c.toNat + 32) else c)
  else u c

/-- Go `strings.ToLower`. -/
def ToLower (u : Char → Char) (s : String) : String :=
  String.mk (s.data.map (lowerRune u))

/-- Go `unicode.IsSpace`: tab, line feed, vertical tab, form feed, carriage return,
space, U+0085, U+00A0 and the remaining code points of the category `White_Space`. -/
def IsSpace (c : Char) : Bool :=
  let n := c.toNat
  (9 ≤ n && n ≤ 13) || n == 0x20 || n == 0x85 || n == 0xA0 || n == 0x1680 ||
    (0x2000 ≤ n && n ≤ 0x200a) || n == 0x2028 || n == 0x2029 || n == 0x202f ||
    n == 0x205f || n == 0x3000

/-- Go `strings.TrimSpace`: the string without its leading and trailing white space. -/
def TrimSpace (s : String) : String :=
  String.mk ((s.data.dropWhile IsSpace).rdropWhile IsSpace)

/-! ## Data model -/

/-- A `time.Time` instant, as nanoseconds since the Unix epoch. -/
structure Time where
  unixNano : Int
  deriving DecidableEq

/-- The driver's `primitive.NewDateTimeFromTime`, `t.Unix()*1e3 + t.Nanosecond()/1e6`:
the BSON datetime of an instant, in whole milliseconds since the Unix epoch. -/
def NewDateTimeFromTime (t : Time) : Int :=
  t.unixNano / 1000000000 * 1000 + t.unixNano % 1000000000 / 1000000

/-- The instant a BSON datetime decodes to. -/
def fromDateTime (ms : Int) : Time := ⟨ms * 1000000⟩

/-- The timestamp of a record as the collection keeps it: the sub-millisecond part of
the instant is lost in the BSON datetime. -/
def Time.persisted (t : Time) : Time := fromDateTime (NewDateTimeFromTime t)

/-- The type `primitive.ObjectID`, an array of twelve bytes. -/
structure ObjectID where
  bytes : List (Fin 256)
  size : bytes.length = 12
  deriving DecidableEq

/-- The zero value of `primitive.ObjectID`. -/
def NilObjectID : ObjectID := ⟨List.replicate 12 0, rfl⟩

/-- The digit table of `encoding/hex`. -/
def hextable : List Char := "0123456789abcdef".data

/-- One digit of `hextable`. -/
def hexDigit (n : Nat) : Char := hextable.getD n '0'

/-- Go `hex.EncodeToString`: two digits per byte, high nibble first. -/
def EncodeToString : List (Fin 256) → List Char
  | [] => []
  | b :: bs => hexDigit (b.val / 16) :: hexDigit (b.val % 16) :: EncodeToString bs

/-- The method `ObjectID.Hex`. -/
def ObjectID.Hex (id : ObjectID) : String := String.mk (EncodeToString id.bytes)

/-- The struct `Todo`, a record of the collection. -/
structure Todo where
  ID : ObjectID
  Title : String
  Done : Bool
  CreatedAt : Time
  deriving DecidableEq

/-- The struct `TodoJSON`, the wire item. -/
structure TodoJSON where
  ID : String
  Title : String
  Done : Bool
  CreatedAt : Time
  deriving DecidableEq

/-- The function `toJSON`. -/
def toJSON (t : Todo) : TodoJSON :=
  { ID := t.ID.Hex, Title := t.Title, Done := t.Done, CreatedAt := t.CreatedAt }

/-! ## Slices -/

/-- A Go slice value: `nil` is the nil slice, `elems l` a non-nil slice holding `l`. -/
inductive Slice (α : Type) where
  | nil
  | elems (l : List α)
  deriving DecidableEq

/-- Go `make([]T, 0, n)`: a non-nil slice of length zero. -/
def Slice.make {α : Type} : Slice α := Slice.elems []

/-- Go `append(s, x)`. -/
def Slice.append {α : Type} : Slice α → α → Slice α
  | Slice.nil, x => Slice.elems [x]
  | Slice.elems l, x => Slice.elems (l ++ [x])

/-! ## Filter documents -/

/-- One element `bson.E` of a filter document; the handlers only use boolean values. -/
structure E where
  Key : String
  Value : Bool
  deriving DecidableEq

/-- The type `bson.D`, an ordered document. -/
abbrev D := List E

/-! ## HTTP -/

/-- The part of `http.Request` the handlers read: the method, the parsed query
`r.URL.Query()` and the body. -/
structure Request where
  Method : String
  Query : List (String × List String)
  Body : String

/-- Go `url.Values.Get`: the first value of the key, the empty string when there is none. -/
def Get (v : List (String × List String)) (key : String) : String :=
  match v.lookup key with
  | none => ""
  | some [] => ""
  | some (x :: _) => x

/-- What one write on the response carries: the bytes written by `http.Error`, or the
value handed to `json.Encoder.Encode`. -/
inductive Written where
  | text (s : String)
  | item (t : TodoJSON)
  | items (s : Slice TodoJSON)
  deriving DecidableEq

/-- The state of an `http.ResponseWriter`: the header map, the status once it is
written, and the writes so far. -/
structure ResponseWriter where
  header : List (String × String)
  status : Option Nat
  body : List Written
  deriving DecidableEq

/-- A fresh response writer. -/
def ResponseWriter.new : ResponseWriter := ⟨[], none, []⟩

/-- The call `w.Header().Set(k, v)`. -/
def ResponseWriter.SetHeader (w : ResponseWriter) (k v : String) : ResponseWriter :=
  { w with header := w.header.filter (fun p => p.1 != k) ++ [(k, v)] }

/-- The call `w.WriteHeader(code)`; a second call has no effect. -/
def ResponseWriter.WriteHeader (w : ResponseWriter) (code : Nat) : ResponseWriter :=
  match w.status with
  | none => { w with status := some code }
  | some _ => w

/-- The call `w.Write`: the status is 200 when none was written before. -/
def ResponseWriter.Write (w : ResponseWriter) (x : Written) : ResponseWriter :=
  let w1 := w.WriteHeader 200
  { w1 with body := w1.body ++ [x] }

/-- The status the client receives: 200 when the handler wrote none. -/
def ResponseWriter.StatusCode (w : ResponseWriter) : Nat := w.status.getD 200

/-- Go `http.Error`: plain-text content type, the status, and the message followed by a
newline. -/
def Error (w : ResponseWriter) (error : String) (code : Nat) : ResponseWriter :=
  let w1 := w.SetHeader "Content-Type" "text/plain; charset=utf-8"
  let w2 := w1.SetHeader "X-Content-Type-Options" "nosniff"
  (w2.WriteHeader code).Write (Written.text (error ++ "\n"))

/-- The call `json.NewEncoder(w).Encode(v)`: one write carrying `v`. The handlers
discard the error `Encode` returns; marshalling is taken to succeed. -/
def Encode (w : ResponseWriter) (v : Written) : ResponseWriter := w.Write v

/-- The bytes `encoding/json` produces for a slice: `null` for the nil slice, otherwise
the elements between brackets, separated by commas. -/
def marshalSlice (marshal : TodoJSON → String) : Slice TodoJSON → String
  | Slice.nil => "null"
  | Slice.elems l => "[" ++ ",".intercalate (l.map marshal) ++ "]"

/-- The bytes of one write; `marshal` is the rendering of one wire item by
`encoding/json`, and `Encode` ends its output with a newline. -/
def Written.bytes (marshal : TodoJSON → String) : Written → String
  | Written.text s => s
  | Written.item t => marshal t ++ "\n"
  | Written.items s => marshalSlice marshal s ++ "\n"

/-- The bytes of the response body: the writes in order. -/
def ResponseWriter.bytes (marshal : TodoJSON → String) (w : ResponseWriter) : String :=
  String.join (w.body.map (Written.bytes marshal))

/-! ## The collection -/

/-- An error returned by the driver. -/
structure DriverError where
  msg : String
  deriving DecidableEq

/-- The dynamic value `InsertedID` of an insert result. -/
inductive AnyID where
  | objectID (oid : ObjectID)
  | other (desc : String)
  deriving DecidableEq

/-- The struct `mongo.InsertOneResult`. -/
structure InsertOneResult where
  InsertedID : AnyID

/-- A `mongo.Cursor`, through the result of `cur.All`. -/
structure Cursor where
  All : Except DriverError (List Todo)

/-- The methods of `mongo.Collection` the handlers call, over a store state `σ`. -/
structure Collection (σ : Type) where
  Find : σ → D → Except DriverError Cursor
  InsertOne : σ → Todo → Except DriverError InsertOneResult × σ

/-- A call issued on the collection. -/
inductive StoreOp where
  | Find (filter : D)
  | InsertOne (doc : Todo)
  deriving DecidableEq

/-- The result of running a handler. -/
structure Outcome (σ : Type) where
  w : ResponseWriter
  ops : List StoreOp
  store : σ

/-- The inputs of a handler that come from the standard library: the lower-case table
of `unicode`, the outcome of decoding a body into `struct { Title string }`
(`none` when `Decode` returns an error) and the value of `time.Now()`. -/
structure Env where
  unicodeToLower : Char → Char
  decodeTitle : String → Option String
  now : Time

/-! ## The handlers -/

/-- The function `listTodos`. -/
def listTodos {σ : Type} (env : Env) (coll : Collection σ) (s : σ) (r : Request) :
    Outcome σ :=
  let w := ResponseWriter.new.SetHeader "Content-Type" "application/json; charset=utf-8"
  let q := Get r.Query "done"
  let filter : Option D :=
    if q ≠ "" then
      let lq := ToLower env.unicodeToLower q
      if lq = "true" ∨ lq = "1" ∨ lq = "t" ∨ lq = "on" then
        some [⟨"done", true⟩]
      else if lq = "false" ∨ lq = "0" ∨ lq = "f" ∨ lq = "off" then
        some [⟨"done", false⟩]
      else none
    else some []
  match filter with
  | none => ⟨Error w "\x7b\"error\":\"done true/false olmalı\"\x7d" 400, [], s⟩
  | some filter =>
    match coll.Find s filter with
    | Except.error _ =>
      ⟨Error w "\x7b\"error\":\"db find hatası\"\x7d" 500, [StoreOp.Find filter], s⟩
    | Except.ok cur =>
      match cur.All with
      | Except.error _ =>
        ⟨Error w "\x7b\"error\":\"db decode hatası\"\x7d" 500, [StoreOp.Find filter], s⟩
      | Except.ok docs =>
        let out := docs.foldl (fun out d => out.append (toJSON d)) Slice.make
        ⟨Encode w (Written.items out), [StoreOp.Find filter], s⟩

/-- The function `createTodo`. -/
def createTodo {σ : Type} (env : Env) (coll : Collection σ) (s : σ) (r : Request) :
    Outcome σ :=
  let w := ResponseWriter.new.SetHeader "Content-Type" "application/json; charset=utf-8"
  match env.decodeTitle r.Body with
  | none => ⟨Error w "\x7b\"error\":\"geçersiz JSON ya da boş title\"\x7d" 400, [], s⟩
  | some title =>
    if TrimSpace title = "" then
      ⟨Error w "\x7b\"error\":\"geçersiz JSON ya da boş title\"\x7d" 400, [], s⟩
    else
      let doc : Todo :=
        { ID := NilObjectID, Title := TrimSpace title, Done := false, CreatedAt := env.now }
      match coll.InsertOne s doc with
      | (Except.error _, s1) =>
        ⟨Error w "\x7b\"error\":\"db insert hatası\"\x7d" 500, [StoreOp.InsertOne doc], s1⟩
      | (Except.ok res, s1) =>
        let doc1 : Todo :=
          match res.InsertedID with
          | AnyID.objectID oid => { doc with ID := oid }
          | AnyID.other _ => doc
        ⟨Encode (w.WriteHeader 201) (Written.item (toJSON doc1)), [StoreOp.InsertOne doc], s1⟩

/-- The handler `main` registers for `/todos`. -/
def todosHandler {σ : Type} (env : Env) (coll : Collection σ) (s : σ) (r : Request) :
    Outcome σ :=
  if r.Method = "GET" then listTodos env coll s r
  else if r.Method = "POST" then createTodo env coll s r
  else ⟨ResponseWriter.new.WriteHeader 405, [], s⟩

/-! ## A reference model of the collection -/

/-- The state of the store: the records of the collection, in their natural order. -/
structure Store where
  docs : List Todo
  deriving DecidableEq

/-- Whether a record satisfies one element of a filter: equality on the field `done`,
the only boolean field of a record. -/
def E.holds (e : E) (t : Todo) : Bool := e.Key == "done" && t.Done == e.Value

/-- Whether a record matches a filter document: every element holds. -/
def D.holds (f : D) (t : Todo) : Bool := f.all (fun e => e.holds t)

/-- What the driver does during one request: the error of each call when it fails, and
the identifier it generates for a record inserted without one. -/
structure Driver where
  findErr : Option DriverError
  allErr : Option DriverError
  insertErr : Option DriverError
  newID : ObjectID

/-- The collection over `Store`: `Find` yields the matching records in store order,
`InsertOne` appends the record, under a generated identifier when its own is the zero
value (the field is `omitempty`) and with its timestamp as a BSON datetime keeps it
(whole milliseconds); a failing call leaves the store as it is. -/
def memColl (d : Driver) : Collection Store where
  Find s f :=
    match d.findErr with
    | some e => Except.error e
    | none =>
      Except.ok ⟨match d.allErr with
        | some e => Except.error e
        | none => Except.ok (s.docs.filter (fun t => D.holds f t))⟩
  InsertOne s doc :=
    match d.insertErr with
    | some e => (Except.error e, s)
    | none =>
      let id := if doc.ID = NilObjectID then d.newID else doc.ID
      (Except.ok ⟨AnyID.objectID id⟩,
        ⟨s.docs ++ [{ doc with ID := id, CreatedAt := doc.CreatedAt.persisted }]⟩)

/-! ## Vocabulary of the specification -/

/-- The error body shape of the HTTP surface: a JSON object with the one member
`error`. -/
def jsonErrorBody (msg : String) : String := "\x7b\"error\":\"" ++ msg ++ "\"\x7d"

/-- A lower-case hexadecimal digit. -/
def isLowerHex (c : Char) : Bool := ('0' ≤ c && c ≤ '9') || ('a' ≤ c && c ≤ 'f')

/-- A well-formed identifier string: 24 lower-case hexadecimal characters. -/
def wellFormedID (s : String) : Bool := s.data.length == 24 && s.data.all isLowerHex

/-- The record invariant of the data model: the title is not empty, not all white
space, already trimmed, and `done` is false. -/
def GoodRecord (t : Todo) : Prop :=
  t.Title ≠ "" ∧ ¬ (∀ c ∈ t.Title.data, IsSpace c = true) ∧ TrimSpace t.Title = t.Title ∧
    t.Done = false

/-- The test of the round-trip property on a wire item: its title is `title`, its
`done` is false and its id is well formed. -/
def isCreated (title : String) (x : TodoJSON) : Bool :=
  x.Title == title && !x.Done && wellFormedID x.ID

/-! ## Sample inputs -/

/-- An environment for the examples: the identity outside ASCII, a decoder that knows
three bodies, and a fixed clock. -/
def sampleEnv : Env where
  unicodeToLower := id
  decodeTitle b :=
    if b = "\x7b\"title\":\" buy milk \"\x7d" then some " buy milk "
    else if b = "\x7b\"title\":\"  \"\x7d" then some "  "
    else if b = "\x7b\x7d" then some ""
    else none
  now := ⟨1700000000000000000⟩

/-- The environment `sampleEnv` with a clock that has a sub-millisecond part. -/
def nanoEnv : Env := { sampleEnv with now := ⟨1700000000123456789⟩ }

/-- A sample identifier. -/
def sampleID : ObjectID := ⟨[101, 78, 26, 0, 171, 205, 239, 1, 35, 69, 103, 137], rfl⟩

/-- A driver whose calls all succeed. -/
def okDriver : Driver := ⟨none, none, none, sampleID⟩

/-- A store of two records, one of them done. -/
def sampleStore : Store :=
  ⟨[⟨⟨[100, 255, 16, 1, 2, 3, 4, 5, 6, 7, 8, 9], rfl⟩, "buy milk", false,
      ⟨1690000000000000000⟩⟩,
    ⟨⟨[100, 255, 16, 1, 2, 3, 4, 5, 6, 7, 8, 10], rfl⟩, "write spec", true,
      ⟨1690000001000000000⟩⟩]⟩

/-- A driver whose calls all fail. -/
def badDriver (m : String) : Driver := ⟨some ⟨m⟩, some ⟨m⟩, some ⟨m⟩, sampleID⟩

/-- A driver whose `Find` succeeds and whose `cur.All` fails. -/
def badCursorDriver (m : String) : Driver := ⟨none, some ⟨m⟩, none, sampleID⟩

/-! ## Lemmas on the response writer -/

theorem Encode_body (w : ResponseWriter) (v : Written) :
    (Encode w v).body = w.body ++ [v] := by
  cases w with
  | mk h st b => cases st <;> rfl

theorem foldl_append_toJSON (docs : List Todo) (acc : List TodoJSON) :
    docs.foldl (fun out d => Slice.append out (toJSON d)) (Slice.elems acc)
      = Slice.elems (acc ++ docs.map toJSON) := by
  induction docs generalizing acc with
  | nil => simp
  | cons d ds ih =>
    show List.foldl _ (Slice.elems (acc ++ [toJSON d])) ds = _
    rw [ih]; simp

theorem ToLower_empty (u : Char → Char) : ToLower u "" = "" := rfl

theorem listTodos_cases {σ : Type} (env : Env) (coll : Collection σ) (s : σ) (r : Request) :
    ((listTodos env coll s r).ops = [] ∧ (listTodos env coll s r).store = s ∧
      (listTodos env coll s r).w =
        Error (ResponseWriter.new.SetHeader "Content-Type" "application/json; charset=utf-8")
          "\x7b\"error\":\"done true/false olmalı\"\x7d" 400) ∨
    ∃ f, (listTodos env coll s r).ops = [StoreOp.Find f] ∧ (listTodos env coll s r).store = s ∧
      (listTodos env coll s r).w =
        match coll.Find s f with
        | Except.error _ =>
          Error (ResponseWriter.new.SetHeader "Content-Type" "application/json; charset=utf-8")
            "\x7b\"error\":\"db find hatası\"\x7d" 500
        | Except.ok cur =>
          match cur.All with
          | Except.error _ =>
            Error (ResponseWriter.new.SetHeader "Content-Type" "application/json; charset=utf-8")
              "\x7b\"error\":\"db decode hatası\"\x7d" 500
          | Except.ok docs =>
            Encode (ResponseWriter.new.SetHeader "Content-Type" "application/json; charset=utf-8")
              (Written.items (Slice.elems (docs.map toJSON))) := by
  unfold listTodos
  simp only []
  split
  · left; exact ⟨rfl, rfl, rfl⟩
  · rename_i f hf
    right
    refine ⟨f, ?_⟩
    split
    · exact ⟨rfl, rfl, rfl⟩
    · split
      · exact ⟨rfl, rfl, rfl⟩
      · refine ⟨rfl, rfl, ?_⟩
        simp only [Slice.make, foldl_append_toJSON, List.nil_append]

theorem listTodos_of_empty {σ : Type} (env : Env) (coll : Collection σ) (s : σ) (r : Request)
    (hq : Get r.Query "done" = "") :
    (listTodos env coll s r).ops = [StoreOp.Find []] := by
  unfold listTodos
  simp only [hq]
  simp
  split
  · rfl
  · split <;> rfl

theorem listTodos_ops_true {σ : Type} (env : Env) (coll : Collection σ) (s : σ) (r : Request)
    (h : ToLower env.unicodeToLower (Get r.Query "done") ∈ ["true", "1", "t", "on"]) :
    (listTodos env coll s r).ops = [StoreOp.Find [⟨"done", true⟩]] := by
  have hq : Get r.Query "done" ≠ "" := by
    intro h0
    rw [h0, ToLower_empty] at h
    revert h
    decide
  simp only [List.mem_cons, List.mem_singleton, List.not_mem_nil, or_false] at h
  unfold listTodos
  simp only [hq, h, ne_eq, not_false_eq_true, if_true]
  split
  · rfl
  · split <;> rfl

theorem listTodos_ops_false {σ : Type} (env : Env) (coll : Collection σ) (s : σ) (r : Request)
    (h : ToLower env.unicodeToLower (Get r.Query "done") ∈ ["false", "0", "f", "off"]) :
    (listTodos env coll s r).ops = [StoreOp.Find [⟨"done", false⟩]] := by
  have hq : Get r.Query "done" ≠ "" := by
    intro h0
    rw [h0, ToLower_empty] at h
    revert h
    decide
  have h1 : ¬ (ToLower env.unicodeToLower (Get r.Query "done") = "true" ∨
      ToLower env.unicodeToLower (Get r.Query "done") = "1" ∨
      ToLower env.unicodeToLower (Get r.Query "done") = "t" ∨
      ToLower env.unicodeToLower (Get r.Query "done") = "on") := by
    revert h
    generalize ToLower env.unicodeToLower (Get r.Query "done") = lq
    intro h
    simp only [List.mem_cons, List.mem_singleton, List.not_mem_nil, or_false] at h
    rcases h with h | h | h | h <;> subst h <;> decide
  simp only [List.mem_cons, List.mem_singleton, List.not_mem_nil, or_false] at h
  unfold listTodos
  simp only [hq, h1, h, ne_eq, not_false_eq_true, if_true, if_false]
  split
  · rfl
  · split <;> rfl

theorem listTodos_rejected {σ : Type} (env : Env) (coll : Collection σ) (s : σ) (r : Request)
    (hq : Get r.Query "done" ≠ "")
    (h1 : ToLower env.unicodeToLower (Get r.Query "done") ∉ ["true", "1", "t", "on"])
    (h2 : ToLower env.unicodeToLower (Get r.Query "done") ∉ ["false", "0", "f", "off"]) :
    listTodos env coll s r =
      ⟨Error (ResponseWriter.new.SetHeader "Content-Type" "application/json; charset=utf-8")
        "\x7b\"error\":\"done true/false olmalı\"\x7d" 400, [], s⟩ := by
  simp only [List.mem_cons, List.mem_singleton, List.not_mem_nil, or_false] at h1 h2
  unfold listTodos
  simp only [hq, h1, h2, ne_eq, not_false_eq_true, if_true, if_false]

theorem Get_of_lookup_none (v : List (String × List String)) (k : String)
    (h : v.lookup k = none) : Get v k = "" := by
  simp [Get, h]

/-- C1: the filter `listTodos` hands to the store is the empty document when `done` is
absent or empty, the single condition `done = true` when the lower-cased value is one of
"true", "1", "t", "on", and the single condition `done = false` when it is one of
"false", "0", "f", "off"; upper-case spellings such as "TRUE", "On", "F" are accepted. -/
theorem listTodos_filter {σ : Type} (env : Env) (coll : Collection σ) (s : σ) (r : Request) :
    (r.Query.lookup "done" = none → (listTodos env coll s r).ops = [StoreOp.Find []]) ∧
    (Get r.Query "done" = "" → (listTodos env coll s r).ops = [StoreOp.Find []]) ∧
    (ToLower env.unicodeToLower (Get r.Query "done") ∈ ["true", "1", "t", "on"] →
      (listTodos env coll s r).ops = [StoreOp.Find [⟨"done", true⟩]]) ∧
    (ToLower env.unicodeToLower (Get r.Query "done") ∈ ["false", "0", "f", "off"] →
      (listTodos env coll s r).ops = [StoreOp.Find [⟨"done", false⟩]]) ∧
    (∀ m b, (listTodos env coll s ⟨m, [("done", ["TRUE"])], b⟩).ops
      = [StoreOp.Find [⟨"done", true⟩]]) ∧
    (∀ m b, (listTodos env coll s ⟨m, [("done", ["On"])], b⟩).ops
      = [StoreOp.Find [⟨"done", true⟩]]) ∧
    (∀ m b, (listTodos env coll s ⟨m, [("done", ["F"])], b⟩).ops
      = [StoreOp.Find [⟨"done", false⟩]]) := by
  refine ⟨fun h => listTodos_of_empty env coll s r (Get_of_lookup_none _ _ h),
    listTodos_of_empty env coll s r, listTodos_ops_true env coll s r,
    listTodos_ops_false env coll s r, ?_, ?_, ?_⟩
  · intro m b
    apply listTodos_ops_true
    show ToLower env.unicodeToLower "TRUE" ∈ _
    rw [show ToLower env.unicodeToLower "TRUE" = "true" from rfl]
    decide
  · intro m b
    apply listTodos_ops_true
    show ToLower env.unicodeToLower "On" ∈ _
    rw [show ToLower env.unicodeToLower "On" = "on" from rfl]
    decide
  · intro m b
    apply listTodos_ops_false
    show ToLower env.unicodeToLower "F" ∈ _
    rw [show ToLower env.unicodeToLower "F" = "f" from rfl]
    decide

theorem listTodos_filter_witness :
    (listTodos sampleEnv (memColl okDriver) ⟨[]⟩ ⟨"GET", [], ""⟩).ops = [StoreOp.Find []] ∧
    (listTodos sampleEnv (memColl okDriver) ⟨[]⟩ ⟨"GET", [("done", [""])], ""⟩).ops
      = [StoreOp.Find []] ∧
    (listTodos sampleEnv (memColl okDriver) ⟨[]⟩ ⟨"GET", [("done", ["1"])], ""⟩).ops
      = [StoreOp.Find [⟨"done", true⟩]] ∧
    (listTodos sampleEnv (memColl okDriver) ⟨[]⟩ ⟨"GET", [("done", ["OFF"])], ""⟩).ops
      = [StoreOp.Find [⟨"done", false⟩]] :=
  ⟨(listTodos_filter sampleEnv (memColl okDriver) ⟨[]⟩ ⟨"GET", [], ""⟩).1 (by decide),
   (listTodos_filter sampleEnv (memColl okDriver) ⟨[]⟩ ⟨"GET", [("done", [""])], ""⟩).2.1
     (by decide),
   (listTodos_filter sampleEnv (memColl okDriver) ⟨[]⟩ ⟨"GET", [("done", ["1"])], ""⟩).2.2.1
     (by decide),
   (listTodos_filter sampleEnv (memColl okDriver) ⟨[]⟩
     ⟨"GET", [("done", ["OFF"])], ""⟩).2.2.2.1 (by decide)⟩

/-- C2: a non-empty `done` value whose lower-cased form is in neither alias set makes
`listTodos` answer 400 with the JSON error body, without any call on the store; the
response is the same for every collection and store state. -/
theorem listTodos_invalid_done {σ : Type} (env : Env) (coll : Collection σ) (s : σ)
    (r : Request) (hq : Get r.Query "done" ≠ "")
    (h1 : ToLower env.unicodeToLower (Get r.Query "done") ∉ ["true", "1", "t", "on"])
    (h2 : ToLower env.unicodeToLower (Get r.Query "done") ∉ ["false", "0", "f", "off"]) :
    (listTodos env coll s r).w.StatusCode = 400 ∧
    (listTodos env coll s r).w.body
      = [Written.text (jsonErrorBody "done true/false olmalı" ++ "\n")] ∧
    (listTodos env coll s r).ops = [] ∧
    (listTodos env coll s r).store = s ∧
    ∀ {τ : Type} (coll1 : Collection τ) (s1 : τ),
      (listTodos env coll1 s1 r).w = (listTodos env coll s r).w := by
  refine ⟨?_, ?_, ?_, ?_, ?_⟩
  · rw [listTodos_rejected env coll s r hq h1 h2]; rfl
  · rw [listTodos_rejected env coll s r hq h1 h2]; rfl
  · rw [listTodos_rejected env coll s r hq h1 h2]
  · rw [listTodos_rejected env coll s r hq h1 h2]
  · intro τ coll1 s1
    rw [listTodos_rejected env coll s r hq h1 h2, listTodos_rejected env coll1 s1 r hq h1 h2]

theorem listTodos_invalid_done_witness :
    (listTodos sampleEnv (memColl okDriver) ⟨[]⟩ ⟨"GET", [("done", ["xyz"])], ""⟩).w.StatusCode
      = 400 :=
  (listTodos_invalid_done sampleEnv (memColl okDriver) ⟨[]⟩ ⟨"GET", [("done", ["xyz"])], ""⟩
    (by decide) (by decide) (by decide)).1

/-! ## Lemmas on strings and identifiers -/

theorem TrimSpace_of_all_space (T : String) (h : ∀ c ∈ T.data, IsSpace c = true) :
    TrimSpace T = "" := by
  have h0 : T.data.dropWhile IsSpace = [] := List.dropWhile_eq_nil_iff.mpr h
  unfold TrimSpace
  rw [h0]
  rfl

theorem dropWhile_rdropWhile_dropWhile (p : Char → Bool) (l : List Char) :
    ((l.dropWhile p).rdropWhile p).dropWhile p = (l.dropWhile p).rdropWhile p := by
  cases hm : l.dropWhile p with
  | nil => rfl
  | cons a t =>
    have ha : p a = false := by
      have h1 := List.head?_dropWhile_not p l
      rw [hm] at h1
      simpa using h1
    have hp : (a :: t).rdropWhile p <+: a :: t := List.rdropWhile_prefix p (a :: t)
    cases hr : (a :: t).rdropWhile p with
    | nil => rfl
    | cons b u =>
      rw [hr] at hp
      have hb : b = a := by
        obtain ⟨v, hv⟩ := hp
        simp only [List.cons_append, List.cons.injEq] at hv
        exact hv.1
      subst hb
      simp [List.dropWhile, ha]

theorem TrimSpace_idem (T : String) : TrimSpace (TrimSpace T) = TrimSpace T := by
  unfold TrimSpace
  simp only [dropWhile_rdropWhile_dropWhile, List.rdropWhile_idempotent]

theorem TrimSpace_not_all_space (T : String) (h : TrimSpace T ≠ "") :
    ¬ (∀ c ∈ (TrimSpace T).data, IsSpace c = true) := by
  intro hall
  apply h
  rw [← TrimSpace_idem]
  exact TrimSpace_of_all_space _ hall

theorem hexDigit_lower : ∀ n, n < 16 → isLowerHex (hexDigit n) = true := by decide

theorem EncodeToString_length (bs : List (Fin 256)) :
    (EncodeToString bs).length = 2 * bs.length := by
  induction bs with
  | nil => rfl
  | cons b bs ih => simp only [EncodeToString, List.length_cons, ih]; omega

theorem EncodeToString_lower (bs : List (Fin 256)) :
    ∀ c ∈ EncodeToString bs, isLowerHex c = true := by
  induction bs with
  | nil => intro c hc; cases hc
  | cons b bs ih =>
    intro c hc
    simp only [EncodeToString, List.mem_cons] at hc
    rcases hc with hc | hc | hc
    · rw [hc]; exact hexDigit_lower _ (by have := b.isLt; omega)
    · rw [hc]; exact hexDigit_lower _ (Nat.mod_lt _ (by decide))
    · exact ih c hc

theorem Hex_wellFormed (id : ObjectID) : wellFormedID id.Hex = true := by
  have h1 : (EncodeToString id.bytes).length = 24 := by
    rw [EncodeToString_length, id.size]
  have h2 : (EncodeToString id.bytes).all isLowerHex = true :=
    List.all_eq_true.mpr (EncodeToString_lower id.bytes)
  show ((EncodeToString id.bytes).length == 24 && (EncodeToString id.bytes).all isLowerHex) = true
  rw [h1, h2]
  rfl

/-! ## Lemmas on `createTodo` -/

theorem createTodo_rejected {σ : Type} (env : Env) (coll : Collection σ) (s : σ) (r : Request)
    (h : env.decodeTitle r.Body = none ∨
      ∃ T, env.decodeTitle r.Body = some T ∧ TrimSpace T = "") :
    createTodo env coll s r =
      ⟨Error (ResponseWriter.new.SetHeader "Content-Type" "application/json; charset=utf-8")
        "\x7b\"error\":\"geçersiz JSON ya da boş title\"\x7d" 400, [], s⟩ := by
  unfold createTodo
  rcases h with h | ⟨T, h, ht⟩
  · simp only [h]
  · simp only [h, ht, if_true]

theorem createTodo_accepted {σ : Type} (env : Env) (coll : Collection σ) (s : σ) (r : Request)
    (T : String) (hd : env.decodeTitle r.Body = some T) (ht : TrimSpace T ≠ "") :
    createTodo env coll s r =
      match coll.InsertOne s ⟨NilObjectID, TrimSpace T, false, env.now⟩ with
      | (Except.error _, s1) =>
        ⟨Error (ResponseWriter.new.SetHeader "Content-Type" "application/json; charset=utf-8")
          "\x7b\"error\":\"db insert hatası\"\x7d" 500,
          [StoreOp.InsertOne ⟨NilObjectID, TrimSpace T, false, env.now⟩], s1⟩
      | (Except.ok res, s1) =>
        ⟨Encode ((ResponseWriter.new.SetHeader "Content-Type"
            "application/json; charset=utf-8").WriteHeader 201)
          (Written.item (toJSON
            (match res.InsertedID with
              | AnyID.objectID oid => ⟨oid, TrimSpace T, false, env.now⟩
              | AnyID.other _ => ⟨NilObjectID, TrimSpace T, false, env.now⟩))),
          [StoreOp.InsertOne ⟨NilObjectID, TrimSpace T, false, env.now⟩], s1⟩ := by
  unfold createTodo
  simp only [hd, ht, if_false]

theorem createTodo_memColl_ok (env : Env) (d : Driver) (st : Store) (r : Request) (T : String)
    (hd : env.decodeTitle r.Body = some T) (ht : TrimSpace T ≠ "") (hi : d.insertErr = none) :
    createTodo env (memColl d) st r =
      ⟨Encode ((ResponseWriter.new.SetHeader "Content-Type"
          "application/json; charset=utf-8").WriteHeader 201)
        (Written.item (toJSON ⟨d.newID, TrimSpace T, false, env.now⟩)),
        [StoreOp.InsertOne ⟨NilObjectID, TrimSpace T, false, env.now⟩],
        ⟨st.docs ++ [⟨d.newID, TrimSpace T, false, env.now.persisted⟩]⟩⟩ := by
  have hI : (memColl d).InsertOne st ⟨NilObjectID, TrimSpace T, false, env.now⟩
      = (Except.ok ⟨AnyID.objectID d.newID⟩,
          ⟨st.docs ++ [⟨d.newID, TrimSpace T, false, env.now.persisted⟩]⟩) := by
    simp [memColl, hi]
  rw [createTodo_accepted env (memColl d) st r T hd ht, hI]

/-! ## The create operation -/

/-- C3: a body that fails to decode, or that decodes to a title which is empty once
trimmed (the empty title of a missing field, or an all-white-space title), makes
`createTodo` answer 400 with the JSON error body; no insert is issued and the store
is the one the handler started from. -/
theorem createTodo_bad_request {σ : Type} (env : Env) (coll : Collection σ) (s : σ)
    (r : Request)
    (h : env.decodeTitle r.Body = none ∨
      ∃ T, env.decodeTitle r.Body = some T ∧
        (TrimSpace T = "" ∨ T = "" ∨ ∀ c ∈ T.data, IsSpace c = true)) :
    (createTodo env coll s r).w.StatusCode = 400 ∧
    (createTodo env coll s r).w.body
      = [Written.text (jsonErrorBody "geçersiz JSON ya da boş title" ++ "\n")] ∧
    (createTodo env coll s r).ops = [] ∧
    (createTodo env coll s r).store = s := by
  have h1 : env.decodeTitle r.Body = none ∨
      ∃ T, env.decodeTitle r.Body = some T ∧ TrimSpace T = "" := by
    rcases h with h | ⟨T, hT, h | h | h⟩
    · exact Or.inl h
    · exact Or.inr ⟨T, hT, h⟩
    · exact Or.inr ⟨T, hT, by rw [h]; rfl⟩
    · exact Or.inr ⟨T, hT, TrimSpace_of_all_space T h⟩
  rw [createTodo_rejected env coll s r h1]
  exact ⟨rfl, rfl, rfl, rfl⟩

theorem createTodo_bad_request_witness :
    (createTodo sampleEnv (memColl okDriver) ⟨[]⟩ ⟨"POST", [], "not json"⟩).w.StatusCode = 400 ∧
    (createTodo sampleEnv (memColl okDriver) ⟨[]⟩
      ⟨"POST", [], "\x7b\"title\":\"  \"\x7d"⟩).store.docs.length = 0 :=
  ⟨(createTodo_bad_request sampleEnv (memColl okDriver) ⟨[]⟩ ⟨"POST", [], "not json"⟩
      (Or.inl (by decide))).1,
   by rw [(createTodo_bad_request sampleEnv (memColl okDriver) ⟨[]⟩
      ⟨"POST", [], "\x7b\"title\":\"  \"\x7d"⟩
      (Or.inr ⟨"  ", by decide, Or.inr (Or.inr (by decide))⟩)).2.2.2]; rfl⟩

theorem listTodos_found {σ : Type} (env : Env) (coll : Collection σ) (s : σ) (r : Request)
    (f : D) (cur : Cursor) (docs : List Todo)
    (hops : (listTodos env coll s r).ops = [StoreOp.Find f])
    (hF : coll.Find s f = Except.ok cur) (hA : cur.All = Except.ok docs) :
    (listTodos env coll s r).w =
      Encode (ResponseWriter.new.SetHeader "Content-Type" "application/json; charset=utf-8")
        (Written.items (Slice.elems (docs.map toJSON))) := by
  rcases listTodos_cases env coll s r with ⟨h0, _, _⟩ | ⟨f1, h1, _, h2⟩
  · rw [h0] at hops; cases hops
  · rw [h1] at hops
    injection hops with hops _
    injection hops with hops
    subst hops
    rw [h2, hF]
    simp only [hA]

/-- C6: when `Find` and `cur.All` succeed, `listTodos` answers 200 and encodes the
non-nil slice of `toJSON d` for the documents `d` the cursor returned, one per document
and in the same order; `toJSON` keeps title, done and created_at and renders the id in
hexadecimal; for no document the bytes written are `[]` and a newline, not `null`. -/
theorem listTodos_success {σ : Type} (env : Env) (coll : Collection σ) (s : σ) (r : Request)
    (f : D) (cur : Cursor) (docs : List Todo)
    (hops : (listTodos env coll s r).ops = [StoreOp.Find f])
    (hF : coll.Find s f = Except.ok cur) (hA : cur.All = Except.ok docs) :
    (listTodos env coll s r).w.StatusCode = 200 ∧
    (listTodos env coll s r).w.body = [Written.items (Slice.elems (docs.map toJSON))] ∧
    (∀ d ∈ docs, (toJSON d).Title = d.Title ∧ (toJSON d).Done = d.Done ∧
      (toJSON d).CreatedAt = d.CreatedAt ∧ (toJSON d).ID = d.ID.Hex) ∧
    (∀ marshal, (listTodos env coll s r).w.bytes marshal
      = "[" ++ ",".intercalate (docs.map (fun d => marshal (toJSON d))) ++ "]" ++ "\n") ∧
    (docs = [] → ∀ marshal, (listTodos env coll s r).w.bytes marshal = "[]\n") := by
  have hw := listTodos_found env coll s r f cur docs hops hF hA
  have hb : ∀ marshal, (listTodos env coll s r).w.bytes marshal
      = "[" ++ ",".intercalate (docs.map (fun d => marshal (toJSON d))) ++ "]" ++ "\n" := by
    intro marshal
    rw [hw]
    simp [ResponseWriter.bytes, Encode_body, ResponseWriter.new, ResponseWriter.SetHeader,
      Written.bytes, marshalSlice, String.join, List.map_map, Function.comp_def]
  refine ⟨?_, ?_, ?_, hb, ?_⟩
  · rw [hw]; rfl
  · rw [hw]; rfl
  · intro d _
    exact ⟨rfl, rfl, rfl, rfl⟩
  · intro h marshal
    rw [hb marshal, h]
    rfl

theorem listTodos_success_witness :
    (listTodos sampleEnv (memColl okDriver) sampleStore ⟨"GET", [], ""⟩).w.body
      = [Written.items (Slice.elems
          [⟨"64ff10010203040506070809", "buy milk", false, ⟨1690000000000000000⟩⟩,
           ⟨"64ff1001020304050607080a", "write spec", true, ⟨1690000001000000000⟩⟩])] :=
  (listTodos_success sampleEnv (memColl okDriver) sampleStore ⟨"GET", [], ""⟩ []
    ⟨Except.ok sampleStore.docs⟩ sampleStore.docs rfl rfl rfl).2.1

/-! ## Store failures -/

theorem listTodos_find_failed {σ : Type} (env : Env) (coll : Collection σ) (s : σ)
    (r : Request) (f : D) (e : DriverError)
    (hops : (listTodos env coll s r).ops = [StoreOp.Find f])
    (hF : coll.Find s f = Except.error e) :
    (listTodos env coll s r).w =
      Error (ResponseWriter.new.SetHeader "Content-Type" "application/json; charset=utf-8")
        "\x7b\"error\":\"db find hatası\"\x7d" 500 := by
  rcases listTodos_cases env coll s r with ⟨h0, _, _⟩ | ⟨f1, h1, _, h2⟩
  · rw [h0] at hops; cases hops
  · rw [h1] at hops
    injection hops with hops _
    injection hops with hops
    subst hops
    rw [h2, hF]

theorem listTodos_decode_failed {σ : Type} (env : Env) (coll : Collection σ) (s : σ)
    (r : Request) (f : D) (cur : Cursor) (e : DriverError)
    (hops : (listTodos env coll s r).ops = [StoreOp.Find f])
    (hF : coll.Find s f = Except.ok cur) (hA : cur.All = Except.error e) :
    (listTodos env coll s r).w =
      Error (ResponseWriter.new.SetHeader "Content-Type" "application/json; charset=utf-8")
        "\x7b\"error\":\"db decode hatası\"\x7d" 500 := by
  rcases listTodos_cases env coll s r with ⟨h0, _, _⟩ | ⟨f1, h1, _, h2⟩
  · rw [h0] at hops; cases hops
  · rw [h1] at hops
    injection hops with hops _
    injection hops with hops
    subst hops
    rw [h2, hF]
    simp only [hA]

theorem createTodo_insert_failed {σ : Type} (env : Env) (coll : Collection σ) (s : σ)
    (r : Request) (doc : Todo) (e : DriverError)
    (hops : (createTodo env coll s r).ops = [StoreOp.InsertOne doc])
    (hI : (coll.InsertOne s doc).1 = Except.error e) :
    (createTodo env coll s r).w =
      Error (ResponseWriter.new.SetHeader "Content-Type" "application/json; charset=utf-8")
        "\x7b\"error\":\"db insert hatası\"\x7d" 500 := by
  cases hd : env.decodeTitle r.Body with
  | none =>
    rw [createTodo_rejected env coll s r (Or.inl hd)] at hops
    cases hops
  | some T =>
    by_cases ht : TrimSpace T = ""
    · rw [createTodo_rejected env coll s r (Or.inr ⟨T, hd, ht⟩)] at hops
      cases hops
    · rw [createTodo_accepted env coll s r T hd ht] at hops ⊢
      have hdoc : doc = ⟨NilObjectID, TrimSpace T, false, env.now⟩ := by
        revert hops
        split <;> intro hops <;> injection hops with hops _ <;> injection hops with hops <;>
          exact hops.symm
      subst hdoc
      revert hI
      split
      · intro _; rfl
      · rename_i res s1 heq
        intro hI
        rw [heq] at hI
        cases hI

/-- C8: a failure of `Find` or of `cur.All` in `listTodos`, or of `InsertOne` in
`createTodo`, is answered 500 with a fixed JSON error body; two runs failing at the same
step, whatever their driver errors, have the same status and body. -/
theorem store_failure_generic :
    (∀ {σ τ : Type} (env1 env2 : Env) (c1 : Collection σ) (c2 : Collection τ) (s1 : σ) (s2 : τ)
      (r1 r2 : Request) (f1 f2 : D) (e1 e2 : DriverError),
      (listTodos env1 c1 s1 r1).ops = [StoreOp.Find f1] → c1.Find s1 f1 = Except.error e1 →
      (listTodos env2 c2 s2 r2).ops = [StoreOp.Find f2] → c2.Find s2 f2 = Except.error e2 →
      (listTodos env1 c1 s1 r1).w.StatusCode = 500 ∧
      (listTodos env1 c1 s1 r1).w.body
        = [Written.text (jsonErrorBody "db find hatası" ++ "\n")] ∧
      (listTodos env2 c2 s2 r2).w.StatusCode = (listTodos env1 c1 s1 r1).w.StatusCode ∧
      (listTodos env2 c2 s2 r2).w.body = (listTodos env1 c1 s1 r1).w.body) ∧
    (∀ {σ τ : Type} (env1 env2 : Env) (c1 : Collection σ) (c2 : Collection τ) (s1 : σ) (s2 : τ)
      (r1 r2 : Request) (f1 f2 : D) (cur1 cur2 : Cursor) (e1 e2 : DriverError),
      (listTodos env1 c1 s1 r1).ops = [StoreOp.Find f1] → c1.Find s1 f1 = Except.ok cur1 →
      cur1.All = Except.error e1 →
      (listTodos env2 c2 s2 r2).ops = [StoreOp.Find f2] → c2.Find s2 f2 = Except.ok cur2 →
      cur2.All = Except.error e2 →
      (listTodos env1 c1 s1 r1).w.StatusCode = 500 ∧
      (listTodos env1 c1 s1 r1).w.body
        = [Written.text (jsonErrorBody "db decode hatası" ++ "\n")] ∧
      (listTodos env2 c2 s2 r2).w.StatusCode = (listTodos env1 c1 s1 r1).w.StatusCode ∧
      (listTodos env2 c2 s2 r2).w.body = (listTodos env1 c1 s1 r1).w.body) ∧
    (∀ {σ τ : Type} (env1 env2 : Env) (c1 : Collection σ) (c2 : Collection τ) (s1 : σ) (s2 : τ)
      (r1 r2 : Request) (d1 d2 : Todo) (e1 e2 : DriverError),
      (createTodo env1 c1 s1 r1).ops = [StoreOp.InsertOne d1] →
      (c1.InsertOne s1 d1).1 = Except.error e1 →
      (createTodo env2 c2 s2 r2).ops = [StoreOp.InsertOne d2] →
      (c2.InsertOne s2 d2).1 = Except.error e2 →
      (createTodo env1 c1 s1 r1).w.StatusCode = 500 ∧
      (createTodo env1 c1 s1 r1).w.body
        = [Written.text (jsonErrorBody "db insert hatası" ++ "\n")] ∧
      (createTodo env2 c2 s2 r2).w.StatusCode = (createTodo env1 c1 s1 r1).w.StatusCode ∧
      (createTodo env2 c2 s2 r2).w.body = (createTodo env1 c1 s1 r1).w.body) := by
  refine ⟨?_, ?_, ?_⟩
  · intro σ τ env1 env2 c1 c2 s1 s2 r1 r2 f1 f2 e1 e2 ho1 hf1 ho2 hf2
    rw [listTodos_find_failed env1 c1 s1 r1 f1 e1 ho1 hf1,
      listTodos_find_failed env2 c2 s2 r2 f2 e2 ho2 hf2]
    exact ⟨rfl, rfl, rfl, rfl⟩
  · intro σ τ env1 env2 c1 c2 s1 s2 r1 r2 f1 f2 cur1 cur2 e1 e2 ho1 hf1 ha1 ho2 hf2 ha2
    rw [listTodos_decode_failed env1 c1 s1 r1 f1 cur1 e1 ho1 hf1 ha1,
      listTodos_decode_failed env2 c2 s2 r2 f2 cur2 e2 ho2 hf2 ha2]
    exact ⟨rfl, rfl, rfl, rfl⟩
  · intro σ τ env1 env2 c1 c2 s1 s2 r1 r2 d1 d2 e1 e2 ho1 hi1 ho2 hi2
    rw [createTodo_insert_failed env1 c1 s1 r1 d1 e1 ho1 hi1,
      createTodo_insert_failed env2 c2 s2 r2 d2 e2 ho2 hi2]
    exact ⟨rfl, rfl, rfl, rfl⟩

theorem store_failure_generic_witness :
    ((listTodos sampleEnv (memColl (badDriver "timeout")) sampleStore ⟨"GET", [], ""⟩).w.StatusCode
        = 500 ∧
      (listTodos sampleEnv (memColl (badDriver "no route")) ⟨[]⟩
          ⟨"GET", [("done", ["1"])], ""⟩).w.body
        = (listTodos sampleEnv (memColl (badDriver "timeout")) sampleStore
          ⟨"GET", [], ""⟩).w.body) ∧
    (listTodos sampleEnv (memColl (badCursorDriver "bad field")) sampleStore
        ⟨"GET", [], ""⟩).w.StatusCode = 500 ∧
    (createTodo sampleEnv (memColl (badDriver "timeout")) sampleStore
        ⟨"POST", [], "\x7b\"title\":\" buy milk \"\x7d"⟩).w.StatusCode = 500 :=
  ⟨⟨(store_failure_generic.1 sampleEnv sampleEnv (memColl (badDriver "timeout"))
        (memColl (badDriver "no route")) sampleStore ⟨[]⟩ ⟨"GET", [], ""⟩
        ⟨"GET", [("done", ["1"])], ""⟩ [] [⟨"done", true⟩] ⟨"timeout"⟩ ⟨"no route"⟩
        rfl rfl rfl rfl).1,
     (store_failure_generic.1 sampleEnv sampleEnv (memColl (badDriver "timeout"))
        (memColl (badDriver "no route")) sampleStore ⟨[]⟩ ⟨"GET", [], ""⟩
        ⟨"GET", [("done", ["1"])], ""⟩ [] [⟨"done", true⟩] ⟨"timeout"⟩ ⟨"no route"⟩
        rfl rfl rfl rfl).2.2.2⟩,
   (store_failure_generic.2.1 sampleEnv sampleEnv (memColl (badCursorDriver "bad field"))
        (memColl (badCursorDriver "eof")) sampleStore ⟨[]⟩ ⟨"GET", [], ""⟩ ⟨"GET", [], ""⟩
        [] [] ⟨Except.error ⟨"bad field"⟩⟩ ⟨Except.error ⟨"eof"⟩⟩ ⟨"bad field"⟩ ⟨"eof"⟩
        rfl rfl rfl rfl rfl rfl).1,
   (store_failure_generic.2.2 sampleEnv sampleEnv (memColl (badDriver "timeout"))
        (memColl (badDriver "dup key")) sampleStore ⟨[]⟩
        ⟨"POST", [], "\x7b\"title\":\" buy milk \"\x7d"⟩
        ⟨"POST", [], "\x7b\"title\":\" buy milk \"\x7d"⟩
        ⟨NilObjectID, "buy milk", false, sampleEnv.now⟩
        ⟨NilObjectID, "buy milk", false, sampleEnv.now⟩ ⟨"timeout"⟩ ⟨"dup key"⟩
        rfl rfl rfl rfl).1⟩

/-! ## The dispatch on the method -/

/-- C9: the `/todos` handler runs `listTodos` for GET and `createTodo` for POST; for
every other method it answers 405 with an empty body, without any call on the store. -/
theorem todosHandler_dispatch {σ : Type} (env : Env) (coll : Collection σ) (s : σ)
    (r : Request) :
    (r.Method = "GET" → todosHandler env coll s r = listTodos env coll s r) ∧
    (r.Method = "POST" → todosHandler env coll s r = createTodo env coll s r) ∧
    (r.Method ≠ "GET" → r.Method ≠ "POST" →
      (todosHandler env coll s r).w.StatusCode = 405 ∧
      (todosHandler env coll s r).w.body = [] ∧
      (∀ marshal, (todosHandler env coll s r).w.bytes marshal = "") ∧
      (todosHandler env coll s r).ops = [] ∧
      (todosHandler env coll s r).store = s) := by
  refine ⟨?_, ?_, ?_⟩
  · intro h
    unfold todosHandler
    rw [if_pos h]
  · intro h
    have hg : r.Method ≠ "GET" := by rw [h]; decide
    unfold todosHandler
    rw [if_neg hg, if_pos h]
  · intro hg hp
    unfold todosHandler
    rw [if_neg hg, if_neg hp]
    exact ⟨rfl, rfl, fun _ => rfl, rfl, rfl⟩

theorem todosHandler_dispatch_witness :
    (todosHandler sampleEnv (memColl okDriver) sampleStore ⟨"DELETE", [], ""⟩).w.StatusCode = 405 ∧
    (todosHandler sampleEnv (memColl okDriver) sampleStore ⟨"PUT", [], ""⟩).w.body = [] ∧
    (todosHandler sampleEnv (memColl okDriver) sampleStore ⟨"PATCH", [], ""⟩).ops = [] ∧
    todosHandler sampleEnv (memColl okDriver) sampleStore ⟨"GET", [], ""⟩
      = listTodos sampleEnv (memColl okDriver) sampleStore ⟨"GET", [], ""⟩ :=
  ⟨((todosHandler_dispatch sampleEnv (memColl okDriver) sampleStore ⟨"DELETE", [], ""⟩).2.2
      (by decide) (by decide)).1,
   ((todosHandler_dispatch sampleEnv (memColl okDriver) sampleStore ⟨"PUT", [], ""⟩).2.2
      (by decide) (by decide)).2.1,
   ((todosHandler_dispatch sampleEnv (memColl okDriver) sampleStore ⟨"PATCH", [], ""⟩).2.2
      (by decide) (by decide)).2.2.2.1,
   (todosHandler_dispatch sampleEnv (memColl okDriver) sampleStore ⟨"GET", [], ""⟩).1 rfl⟩

/-! ## Listing on the reference collection -/

theorem holds_nil (t : Todo) : D.holds [] t = true := rfl

theorem holds_done (b : Bool) (t : Todo) : D.holds [⟨"done", b⟩] t = (t.Done == b) := by
  simp [D.holds, E.holds]

theorem listTodos_memColl (env : Env) (d : Driver) (st : Store) (r : Request) (f : D)
    (hf : d.findErr = none) (ha : d.allErr = none)
    (hops : (listTodos env (memColl d) st r).ops = [StoreOp.Find f]) :
    (listTodos env (memColl d) st r).w.StatusCode = 200 ∧
    (listTodos env (memColl d) st r).w.body
      = [Written.items (Slice.elems ((st.docs.filter (fun t => D.holds f t)).map toJSON))] := by
  have hF : (memColl d).Find st f
      = Except.ok ⟨Except.ok (st.docs.filter (fun t => D.holds f t))⟩ := by
    simp [memColl, hf, ha]
  rw [listTodos_found env (memColl d) st r f _ _ hops hF rfl]
  exact ⟨rfl, rfl⟩

/-- C5: on every store state, when the store calls succeed, listing with `done=true`
returns exactly the wire items of the records with done true, listing with `done=false`
those of the records with done false, and listing without filter the wire items of all
records, which are the two filtered listings taken together. -/
theorem listTodos_by_done (env : Env) (d : Driver) (st : Store) (rT rF rA : Request)
    (hf : d.findErr = none) (ha : d.allErr = none)
    (hT : Get rT.Query "done" = "true") (hF : Get rF.Query "done" = "false")
    (hA : Get rA.Query "done" = "") :
    (listTodos env (memColl d) st rT).w.body
      = [Written.items (Slice.elems ((st.docs.filter (fun t => t.Done)).map toJSON))] ∧
    (∀ x ∈ (st.docs.filter (fun t => t.Done)).map toJSON, x.Done = true) ∧
    (listTodos env (memColl d) st rF).w.body
      = [Written.items (Slice.elems ((st.docs.filter (fun t => !t.Done)).map toJSON))] ∧
    (∀ x ∈ (st.docs.filter (fun t => !t.Done)).map toJSON, x.Done = false) ∧
    (listTodos env (memColl d) st rA).w.body
      = [Written.items (Slice.elems (st.docs.map toJSON))] ∧
    ((st.docs.filter (fun t => t.Done)).map toJSON
      ++ (st.docs.filter (fun t => !t.Done)).map toJSON).Perm (st.docs.map toJSON) ∧
    (∀ x, x ∈ st.docs.map toJSON ↔
      x ∈ (st.docs.filter (fun t => t.Done)).map toJSON ∨
      x ∈ (st.docs.filter (fun t => !t.Done)).map toJSON) := by
  have hperm : ((st.docs.filter (fun t => t.Done)).map toJSON
      ++ (st.docs.filter (fun t => !t.Done)).map toJSON).Perm (st.docs.map toJSON) := by
    rw [← List.map_append]
    exact (List.filter_append_perm (fun t => t.Done) st.docs).map toJSON
  refine ⟨?_, ?_, ?_, ?_, ?_, hperm, ?_⟩
  · have ho := listTodos_ops_true env (memColl d) st rT (by rw [hT]; exact List.mem_cons_self _ _)
    rw [(listTodos_memColl env d st rT _ hf ha ho).2]
    simp only [holds_done, beq_true]
  · intro x hx
    obtain ⟨t, ht, rfl⟩ := List.mem_map.mp hx
    exact (List.mem_filter.mp ht).2
  · have ho := listTodos_ops_false env (memColl d) st rF (by rw [hF]; exact List.mem_cons_self _ _)
    rw [(listTodos_memColl env d st rF _ hf ha ho).2]
    simp only [holds_done, beq_false]
  · intro x hx
    obtain ⟨t, ht, rfl⟩ := List.mem_map.mp hx
    have := (List.mem_filter.mp ht).2
    simpa [toJSON] using this
  · have ho := listTodos_of_empty env (memColl d) st rA hA
    rw [(listTodos_memColl env d st rA _ hf ha ho).2]
    simp only [holds_nil, List.filter_true]
  · intro x
    rw [← hperm.mem_iff, List.mem_append]

theorem listTodos_by_done_witness :
    (listTodos sampleEnv (memColl okDriver) sampleStore ⟨"GET", [("done", ["true"])], ""⟩).w.body
      = [Written.items (Slice.elems
          [⟨"64ff1001020304050607080a", "write spec", true, ⟨1690000001000000000⟩⟩])] ∧
    (listTodos sampleEnv (memColl okDriver) sampleStore ⟨"GET", [("done", ["false"])], ""⟩).w.body
      = [Written.items (Slice.elems
          [⟨"64ff10010203040506070809", "buy milk", false, ⟨1690000000000000000⟩⟩])] :=
  ⟨(listTodos_by_done sampleEnv okDriver sampleStore ⟨"GET", [("done", ["true"])], ""⟩
      ⟨"GET", [("done", ["false"])], ""⟩ ⟨"GET", [], ""⟩ rfl rfl (by decide) (by decide)
      (by decide)).1,
   (listTodos_by_done sampleEnv okDriver sampleStore ⟨"GET", [("done", ["true"])], ""⟩
      ⟨"GET", [("done", ["false"])], ""⟩ ⟨"GET", [], ""⟩ rfl rfl (by decide) (by decide)
      (by decide)).2.2.1⟩

/-! ## The store invariant -/

theorem createTodo_memColl_store (env : Env) (d : Driver) (st : Store) (r : Request) :
    (createTodo env (memColl d) st r).store = st ∨
    ∃ T, env.decodeTitle r.Body = some T ∧ TrimSpace T ≠ "" ∧ d.insertErr = none ∧
      (createTodo env (memColl d) st r).store
        = ⟨st.docs ++ [⟨d.newID, TrimSpace T, false, env.now.persisted⟩]⟩ := by
  cases hd : env.decodeTitle r.Body with
  | none =>
    left
    rw [createTodo_rejected env (memColl d) st r (Or.inl hd)]
  | some T =>
    by_cases ht : TrimSpace T = ""
    · left
      rw [createTodo_rejected env (memColl d) st r (Or.inr ⟨T, hd, ht⟩)]
    · cases hi : d.insertErr with
      | some e =>
        left
        have hI : (memColl d).InsertOne st ⟨NilObjectID, TrimSpace T, false, env.now⟩
            = (Except.error e, st) := by
          simp [memColl, hi]
        rw [createTodo_accepted env (memColl d) st r T hd ht, hI]
      | none =>
        right
        refine ⟨T, rfl, ht, rfl, ?_⟩
        rw [createTodo_memColl_ok env d st r T hd ht hi]

theorem listTodos_store {σ : Type} (env : Env) (coll : Collection σ) (s : σ) (r : Request) :
    (listTodos env coll s r).store = s := by
  rcases listTodos_cases env coll s r with ⟨_, h, _⟩ | ⟨_, _, h, _⟩ <;> exact h

theorem GoodRecord_created (id : ObjectID) (T : String) (now : Time) (ht : TrimSpace T ≠ "") :
    GoodRecord ⟨id, TrimSpace T, false, now⟩ :=
  ⟨ht, TrimSpace_not_all_space T ht, TrimSpace_idem T, rfl⟩

/-- C10: one request to the `/todos` handler, whatever its method, query and body and
whatever the driver does, either leaves the records of the store as they are or adds
one record at the end, whose title is non-empty, not all white space and trimmed and
whose `done` is false; hence if all records satisfy this before, all do after. -/
theorem store_invariant (env : Env) (d : Driver) (st : Store) (r : Request) :
    ((todosHandler env (memColl d) st r).store.docs = st.docs ∨
      ∃ t, (todosHandler env (memColl d) st r).store.docs = st.docs ++ [t] ∧ GoodRecord t) ∧
    ((∀ t ∈ st.docs, GoodRecord t) →
      ∀ t ∈ (todosHandler env (memColl d) st r).store.docs, GoodRecord t) := by
  have key : (todosHandler env (memColl d) st r).store.docs = st.docs ∨
      ∃ t, (todosHandler env (memColl d) st r).store.docs = st.docs ++ [t] ∧ GoodRecord t := by
    unfold todosHandler
    by_cases hg : r.Method = "GET"
    · rw [if_pos hg, listTodos_store]
      exact Or.inl rfl
    · rw [if_neg hg]
      by_cases hp : r.Method = "POST"
      · rw [if_pos hp]
        rcases createTodo_memColl_store env d st r with h | ⟨T, _, ht, _, h⟩
        · rw [h]
          exact Or.inl rfl
        · rw [h]
          exact Or.inr ⟨_, rfl, GoodRecord_created d.newID T env.now.persisted ht⟩
      · rw [if_neg hp]
        exact Or.inl rfl
  refine ⟨key, ?_⟩
  intro hall t ht
  rcases key with h | ⟨u, h, hu⟩
  · rw [h] at ht
    exact hall t ht
  · rw [h] at ht
    rcases List.mem_append.mp ht with ht | ht
    · exact hall t ht
    · rw [List.mem_singleton.mp ht]
      exact hu

theorem store_invariant_witness :
    (todosHandler sampleEnv (memColl okDriver) ⟨[⟨NilObjectID, "a", false, ⟨0⟩⟩]⟩
        ⟨"POST", [], "\x7b\"title\":\" buy milk \"\x7d"⟩).store.docs
      = [⟨NilObjectID, "a", false, ⟨0⟩⟩, ⟨sampleID, "buy milk", false, sampleEnv.now⟩] ∧
    ∀ t ∈ (todosHandler sampleEnv (memColl okDriver) ⟨[⟨NilObjectID, "a", false, ⟨0⟩⟩]⟩
        ⟨"POST", [], "\x7b\"title\":\" buy milk \"\x7d"⟩).store.docs, GoodRecord t :=
  ⟨rfl, (store_invariant sampleEnv okDriver ⟨[⟨NilObjectID, "a", false, ⟨0⟩⟩]⟩
      ⟨"POST", [], "\x7b\"title\":\" buy milk \"\x7d"⟩).2
    (by
      intro t ht
      rw [List.mem_singleton.mp ht]
      exact ⟨by decide, by decide, by decide, rfl⟩)⟩

/-! ## Create, then list -/

theorem isCreated_toJSON (title : String) (t : Todo) :
    isCreated title (toJSON t) = (t.Title == title && !t.Done) := by
  show ((toJSON t).Title == title && !(toJSON t).Done && wellFormedID t.ID.Hex) = _
  rw [Hex_wellFormed]
  simp [toJSON]

/-- C7, as the code has it: for a title `T` whose trimmed form is not empty, when no
record of the store already has the title `trim T` with `done` false and the insert and
the listing succeed, creating `T` and then listing without filter returns the wire items
of the old records followed by the new one (its timestamp in whole milliseconds, as the
store keeps it), and exactly one item of that listing has title `trim T`, `done` false
and a well-formed id. -/
theorem create_then_list (env1 env2 : Env) (d1 d2 : Driver) (st : Store) (r g : Request)
    (T : String) (hd : env1.decodeTitle r.Body = some T) (ht : TrimSpace T ≠ "")
    (hi : d1.insertErr = none) (hf : d2.findErr = none) (ha : d2.allErr = none)
    (hg : Get g.Query "done" = "")
    (hnew : ∀ t ∈ st.docs, ¬ (t.Title = TrimSpace T ∧ t.Done = false)) :
    (createTodo env1 (memColl d1) st r).w.StatusCode = 201 ∧
    (listTodos env2 (memColl d2) (createTodo env1 (memColl d1) st r).store g).w.StatusCode
      = 200 ∧
    (listTodos env2 (memColl d2) (createTodo env1 (memColl d1) st r).store g).w.body
      = [Written.items (Slice.elems
          ((st.docs ++ [(⟨d1.newID, TrimSpace T, false, env1.now.persisted⟩ : Todo)]).map
            toJSON))] ∧
    ((st.docs ++ [(⟨d1.newID, TrimSpace T, false, env1.now.persisted⟩ : Todo)]).map
      toJSON).countP
      (isCreated (TrimSpace T)) = 1 := by
  have hc := createTodo_memColl_ok env1 d1 st r T hd ht hi
  have hs : (createTodo env1 (memColl d1) st r).store
      = ⟨st.docs ++ [⟨d1.newID, TrimSpace T, false, env1.now.persisted⟩]⟩ := by
    rw [hc]
  have ho := listTodos_of_empty env2 (memColl d2)
    (createTodo env1 (memColl d1) st r).store g hg
  have hl := listTodos_memColl env2 d2 (createTodo env1 (memColl d1) st r).store g _ hf ha ho
  refine ⟨by rw [hc]; rfl, hl.1, ?_, ?_⟩
  · rw [hl.2, hs]
    simp only [holds_nil, List.filter_true]
  · rw [List.countP_map, List.countP_append]
    have h0 : List.countP (isCreated (TrimSpace T) ∘ toJSON) st.docs = 0 := by
      rw [List.countP_eq_zero]
      intro t htm
      have := hnew t htm
      simp only [Function.comp, isCreated_toJSON]
      simpa using this
    have h1 : List.countP (isCreated (TrimSpace T) ∘ toJSON)
        [(⟨d1.newID, TrimSpace T, false, env1.now.persisted⟩ : Todo)] = 1 := by
      simp [List.countP_cons, Function.comp, isCreated_toJSON]
    rw [h0, h1]

theorem create_then_list_witness :
    (listTodos sampleEnv (memColl okDriver)
      (createTodo nanoEnv (memColl okDriver) ⟨sampleStore.docs.filter (fun t => t.Done)⟩
        ⟨"POST", [], "\x7b\"title\":\" buy milk \"\x7d"⟩).store ⟨"GET", [], ""⟩).w.body
      = [Written.items (Slice.elems
          [⟨"64ff1001020304050607080a", "write spec", true, ⟨1690000001000000000⟩⟩,
           ⟨"654e1a00abcdef0123456789", "buy milk", false, ⟨1700000000123000000⟩⟩])] ∧
    List.countP (isCreated "buy milk")
      [⟨"64ff1001020304050607080a", "write spec", true, ⟨1690000001000000000⟩⟩,
       ⟨"654e1a00abcdef0123456789", "buy milk", false, ⟨1700000000123000000⟩⟩] = 1 :=
  ⟨(create_then_list nanoEnv sampleEnv okDriver okDriver
      ⟨sampleStore.docs.filter (fun t => t.Done)⟩
      ⟨"POST", [], "\x7b\"title\":\" buy milk \"\x7d"⟩ ⟨"GET", [], ""⟩ " buy milk "
      (by decide) (by decide) rfl rfl rfl (by decide) (by decide)).2.2.1,
   (create_then_list nanoEnv sampleEnv okDriver okDriver
      ⟨sampleStore.docs.filter (fun t => t.Done)⟩
      ⟨"POST", [], "\x7b\"title\":\" buy milk \"\x7d"⟩ ⟨"GET", [], ""⟩ " buy milk "
      (by decide) (by decide) rfl rfl rfl (by decide) (by decide)).2.2.2⟩

/-- C7, as stated, fails: in a store that already holds an open record titled
"buy milk", creating " buy milk " and listing without filter returns two items with that
title, `done` false and a well-formed id. -/
theorem create_then_list_duplicate :
    sampleEnv.decodeTitle "\x7b\"title\":\" buy milk \"\x7d" = some " buy milk " ∧
    TrimSpace " buy milk " = "buy milk" ∧
    (createTodo sampleEnv (memColl okDriver) sampleStore
      ⟨"POST", [], "\x7b\"title\":\" buy milk \"\x7d"⟩).w.StatusCode = 201 ∧
    (listTodos sampleEnv (memColl okDriver)
      (createTodo sampleEnv (memColl okDriver) sampleStore
        ⟨"POST", [], "\x7b\"title\":\" buy milk \"\x7d"⟩).store ⟨"GET", [], ""⟩).w
      = ⟨[("Content-Type", "application/json; charset=utf-8")], some 200,
          [Written.items (Slice.elems
            [⟨"64ff10010203040506070809", "buy milk", false, ⟨1690000000000000000⟩⟩,
             ⟨"64ff1001020304050607080a", "write spec", true, ⟨1690000001000000000⟩⟩,
             ⟨"654e1a00abcdef0123456789", "buy milk", false, ⟨1700000000000000000⟩⟩])]⟩ ∧
    List.countP (isCreated "buy milk")
      [⟨"64ff10010203040506070809", "buy milk", false, ⟨1690000000000000000⟩⟩,
       ⟨"64ff1001020304050607080a", "write spec", true, ⟨1690000001000000000⟩⟩,
       ⟨"654e1a00abcdef0123456789", "buy milk", false, ⟨1700000000000000000⟩⟩] = 2 ∧
    ¬ ∃ items, (listTodos sampleEnv (memColl okDriver)
        (createTodo sampleEnv (memColl okDriver) sampleStore
          ⟨"POST", [], "\x7b\"title\":\" buy milk \"\x7d"⟩).store ⟨"GET", [], ""⟩).w.body
          = [Written.items (Slice.elems items)] ∧
        List.countP (isCreated "buy milk") items = 1 := by
  refine ⟨by decide, by decide, rfl, rfl, by decide, ?_⟩
  rintro ⟨items, hb, hcount⟩
  have hb2 : (listTodos sampleEnv (memColl okDriver)
        (createTodo sampleEnv (memColl okDriver) sampleStore
          ⟨"POST", [], "\x7b\"title\":\" buy milk \"\x7d"⟩).store ⟨"GET", [], ""⟩).w.body
      = [Written.items (Slice.elems
            [⟨"64ff10010203040506070809", "buy milk", false, ⟨1690000000000000000⟩⟩,
             ⟨"64ff1001020304050607080a", "write spec", true, ⟨1690000001000000000⟩⟩,
             ⟨"654e1a00abcdef0123456789", "buy milk", false, ⟨1700000000000000000⟩⟩])] := rfl
  rw [hb2] at hb
  injection hb with hb _
  injection hb with hb
  injection hb with hb
  subst hb
  revert hcount
  decide

end GoMongoDb
